import Mathlib

/-!
Verification of the parameter-set cache, frame-slot table, bitstream
buffer pool and logger of the vk_video_samples decoder core
(src/vk_video_decoder/libs/VkVideoDecoder/VkVideoDecoder.h and
src/vk_video_decoder/libs/NvCodecUtils/Logger.h), as a shallow
embedding in Lean 4.

Machine integers are modelled as Nat/Int with explicit reductions
modulo 2^32 / 2^64 where the C++ code performs unsigned arithmetic.
Vulkan handles (VkCommandBuffer) are modelled as abstract Nat ids
drawn from a fresh-handle counter, with 0 playing the role of
VK_NULL_HANDLE.
-/

namespace VkVideoSamples

/-! ## Frame Slot Table: NvVkDecodeFrameData (VkVideoDecoder.h lines 60-139) -/

/-- Unsigned 64-bit subtraction `a - b` on size_t operands (wraps modulo 2^64),
as performed by `maxDecodeFramesCount - oldCommandBuffersCount` in C++. -/
def sub64 (a b : Nat) : Nat :=
  (a + 2 ^ 64 - b % 2 ^ 64) % 2 ^ 64

/-- Truncation of a size_t value to uint32_t, as performed by the cast
`(uint32_t)(maxDecodeFramesCount - oldCommandBuffersCount)`. -/
def toUInt32nat (a : Nat) : Nat :=
  a % 2 ^ 32

/-- State of `NvVkDecodeFrameData`: whether `m_videoCommandPool` holds a live
pool (nonzero handle), the `m_commandBuffers` vector (handles as Nat, 0 =
VK_NULL_HANDLE), `m_maxCodedWidth`, and a fresh-handle counter standing for
the driver's supply of distinct command-buffer handles. -/
structure NvVkDecodeFrameData where
  videoCommandPool : Bool
  commandBuffers : List Nat
  maxCodedWidth : Nat
  nextHandle : Nat
deriving DecidableEq

/-- The state established by the `NvVkDecodeFrameData` constructor:
null pool, empty vector. Handles start at 1 so that 0 = VK_NULL_HANDLE. -/
def initFrameData : NvVkDecodeFrameData :=
  { videoCommandPool := false, commandBuffers := [], maxCodedWidth := 0, nextHandle := 1 }

/-- Result of one `resize` call: the state after the call, the value returned
(`oldCommandBuffersCount`), the `commandBufferCount` passed to
`AllocateCommandBuffers` (after the uint32 cast), and whether this call
created the command pool. -/
structure ResizeResult where
  state : NvVkDecodeFrameData
  ret : Nat
  requestedAllocCount : Nat
  createdPoolNow : Bool
deriving DecidableEq

/-- `NvVkDecodeFrameData::resize(maxDecodeFramesCount, ...)`
(VkVideoDecoder.h lines 83-120).  Creates the command pool if absent, then:
`oldCount := m_commandBuffers.size()`;
`cmdInfo.commandBufferCount := (uint32_t)(maxDecodeFramesCount - oldCount)`;
`m_commandBuffers.resize(maxDecodeFramesCount)` (std::vector::resize:
truncates when shrinking, appends value-initialized null handles when
growing); then `AllocateCommandBuffers` writes `commandBufferCount` fresh
handles starting at index `oldCount`.  The driver call succeeds exactly when
the request is the genuine growth amount (`oldCount <= target` and the
difference survives the uint32 cast); otherwise (underflowed count, or the
out-of-range write pointer `&m_commandBuffers[oldCount]` of the shrink case)
nothing is written and the code only prints an error.  Returns `oldCount`. -/
def NvVkDecodeFrameData.resize (s : NvVkDecodeFrameData)
    (maxDecodeFramesCount : Nat) (maxCodedWidth : Nat) : ResizeResult :=
  let createdNow := !s.videoCommandPool
  let oldCount := s.commandBuffers.length
  let requested := toUInt32nat (sub64 maxDecodeFramesCount oldCount)
  let resized :=
    if maxDecodeFramesCount ≤ oldCount then
      s.commandBuffers.take maxDecodeFramesCount
    else
      s.commandBuffers ++ List.replicate (maxDecodeFramesCount - oldCount) 0
  let allocOk := oldCount ≤ maxDecodeFramesCount ∧
      maxDecodeFramesCount - oldCount = requested
  let buffers :=
    if allocOk then
      resized.take oldCount ++
        (List.range (maxDecodeFramesCount - oldCount)).map (· + s.nextHandle)
    else resized
  { state := { videoCommandPool := true,
               commandBuffers := buffers,
               maxCodedWidth := maxCodedWidth,
               nextHandle := s.nextHandle + (maxDecodeFramesCount - oldCount) },
    ret := oldCount,
    requestedAllocCount := requested,
    createdPoolNow := createdNow }

/-- `NvVkDecodeFrameData::GetCommandBuffer(slot)` (lines 122-125) evaluates
`assert(slot < m_commandBuffers.size())`; this predicate is the assertion's
condition. -/
def NvVkDecodeFrameData.getCommandBufferAssertHolds
    (s : NvVkDecodeFrameData) (slot : Nat) : Bool :=
  slot < s.commandBuffers.length

/-- `NvVkDecodeFrameData::GetCommandBuffer(slot)` (lines 122-125): returns
`m_commandBuffers[slot]`.  `none` marks the assertion-failure case (in a
release build the read would be out of bounds); there is no error-code
return path. -/
def NvVkDecodeFrameData.getCommandBuffer
    (s : NvVkDecodeFrameData) (slot : Nat) : Option Nat :=
  s.commandBuffers.get? slot

/-- Observable effect of one `deinit` call (lines 69-77): how many command
buffers were passed to `FreeCommandBuffers` (`none` when the branch was not
taken) and whether `DestroyCommandPool` ran. -/
structure DeinitEffect where
  freedBufferCount : Option Nat
  destroyedPool : Bool
deriving DecidableEq

/-- `NvVkDecodeFrameData::deinit()` (lines 69-77): if `m_videoCommandPool`
is non-null, frees all `m_commandBuffers.size()` command buffers, destroys
the pool and nulls the pool handle; otherwise does nothing. -/
def NvVkDecodeFrameData.deinit (s : NvVkDecodeFrameData) :
    NvVkDecodeFrameData × DeinitEffect :=
  if s.videoCommandPool then
    ({ s with videoCommandPool := false },
     { freedBufferCount := some s.commandBuffers.length, destroyedPool := true })
  else
    (s, { freedBufferCount := none, destroyedPool := false })

/-- `NvVkDecodeFrameData::size()` (lines 127-129). -/
def NvVkDecodeFrameData.size (s : NvVkDecodeFrameData) : Nat :=
  s.commandBuffers.length

/-- Fold a sequence of `resize` target counts over a starting state
(coded width fixed, which is irrelevant to the slot count). -/
def resizeSeq (s : NvVkDecodeFrameData) (targets : List Nat) : NvVkDecodeFrameData :=
  targets.foldl (fun st t => (st.resize t st.maxCodedWidth).state) s

/-! ## VkVideoDecoder::GetCurrentFrameData (VkVideoDecoder.h lines 250-258) -/

/-- `NvVkDecodeFrameDataSlot` (VkVideoDecoder.h lines 53-56): a slot index
paired with its command buffer handle. -/
structure NvVkDecodeFrameDataSlot where
  slot : Nat
  commandBuffer : Nat
deriving DecidableEq

/-- Conversion of a uint32_t value to int32_t, as in `return slotId;` where
the function returns `int32_t` and `slotId` is `uint32_t` (two's complement
wrap-around). -/
def toInt32 (n : Nat) : Int :=
  if n % 2 ^ 32 < 2 ^ 31 then (n % 2 ^ 32 : Int) else (n % 2 ^ 32 : Int) - 2 ^ 32

/-- `VkVideoDecoder::GetCurrentFrameData(slotId, frameDataSlot)`
(lines 250-258): if `slotId < m_decodeFramesData.size()`, fills the output
struct with the slot's command buffer (via `GetCommandBuffer`) and the slot
id, and returns `slotId` (as int32_t); otherwise returns `-1` leaving
`frameDataSlot` untouched.  The untouched case is modelled by returning the
caller's struct unchanged. -/
def getCurrentFrameData (d : NvVkDecodeFrameData) (slotId : Nat)
    (frameDataSlot : NvVkDecodeFrameDataSlot) :
    Int × NvVkDecodeFrameDataSlot :=
  if slotId < d.size then
    (toInt32 slotId,
     { slot := slotId, commandBuffer := (d.getCommandBuffer slotId).getD 0 })
  else
    (-1, frameDataSlot)

/-! ## Bitstream buffer pool

`using VulkanBitstreamBufferPool = VulkanVideoRefCountedPool<VulkanBitstreamBufferImpl, 64>;`
(VkVideoDecoder.h line 58) fixes the pool capacity at 64.  The template body
(VkCodecUtils/VulkanVideoReferenceCountedPool.h) is not part of the two
headers under verification, so the pool's behaviour is modelled from the
spec.  A pool is its per-slot refcount vector; a slot is free exactly when
its refcount is 0. -/

/-- Result of a pool acquisition: a refcounted handle on slot `slot`, or
`resourceExhausted` when no slot is free. -/
inductive PoolAcquireResult where
  | ok (slot : Nat)
  | resourceExhausted
deriving DecidableEq

/-- Modelled from the spec: index of the first free slot (refcount 0) in the
pool, scanning in slot order; `none` when every slot is in use. -/
def findFreeSlot : List Nat → Option Nat
  | [] => none
  | r :: rest => if r = 0 then some 0 else (findFreeSlot rest).map (· + 1)

/-- Modelled from the spec (§4.2, VulkanVideoReferenceCountedPool.h not in
the verified headers): `acquire` hands out a free slot with refcount 1, or
fails with `ResourceExhausted` leaving the pool unchanged; it never reuses a
slot whose refcount is nonzero. -/
def poolAcquire (pool : List Nat) : PoolAcquireResult × List Nat :=
  match findFreeSlot pool with
  | some i => (.ok i, pool.set i 1)
  | none => (.resourceExhausted, pool)

/-- Modelled from the spec: releasing a handle decrements its slot's
refcount; the slot re-enters the free set exactly when the count reaches 0. -/
def poolRelease (pool : List Nat) (slot : Nat) : List Nat :=
  pool.set slot (pool.getD slot 0 - 1)

/-- `n` successive acquisitions with no intervening release. -/
def poolAcquireN : Nat → List Nat → List Nat
  | 0, pool => pool
  | n + 1, pool => poolAcquireN n (poolAcquire pool).2

/-- A freshly constructed pool of capacity `K`: every slot free. -/
def mkPool (K : Nat) : List Nat := List.replicate K 0

/-- The decoder's bitstream buffer pool: the line-58 typedef instantiates
the template at capacity 64. -/
def vulkanBitstreamBufferPool : List Nat := mkPool 64

/-- Whether slot `i` of the pool is in the free set (refcount 0). -/
def slotIsFree (pool : List Nat) (i : Nat) : Bool :=
  pool.getD i 1 = 0

/-! ## Parameter-Set Cache (VkVideoDecoder members, lines 234-278)

VkVideoDecoder.h declares the cache state — `m_pictureParametersQueue`,
`m_lastIdInQueue[NUM_OF_TYPES]` (initialized `{-1,-1,-1}` by the
constructor, line 206), `m_lastPictParamsQueue[NUM_OF_TYPES]` and
`m_currentPictureParameters` — together with the operations
`AddPictureParametersToQueue`, `FlushPictureParametersQueue`,
`CheckStdObjectBeforeUpdate`, `CheckStdObjectAfterUpdate` and
`AddPictureParameters`, but their bodies live in a .cpp file outside the
verified headers.  The operations below are therefore modelled from the
spec (§4.4), over the state layout the header declares. -/

/-- The three parameter-set types (`StdVideoPictureParametersSet::NUM_OF_TYPES`
= 3: VPS-like, SPS-like, PPS-like). -/
inductive PsType where
  | vps
  | sps
  | pps
deriving DecidableEq

/-- A `StdVideoPictureParametersSet`: its type, its id (small integer scoped
to the type), and the id of its parent set (the VPS id for an SPS, the SPS
id for a PPS; unused for a VPS). -/
structure StdVideoPictureParametersSet where
  psType : PsType
  psId : Int
  parentId : Int
deriving DecidableEq

/-- `VkParserVideoPictureParameters`, the composite ActiveParametersObject:
one constituent parameter set per type, immutable once built. -/
structure VkParserVideoPictureParameters where
  vpsSet : StdVideoPictureParametersSet
  spsSet : StdVideoPictureParametersSet
  ppsSet : StdVideoPictureParametersSet
deriving DecidableEq

/-- `int32_t m_lastIdInQueue[NUM_OF_TYPES]`: most recently queued id per
type (line 275), initialized to -1 (line 206). -/
structure LastIdInQueue where
  vpsId : Int
  spsId : Int
  ppsId : Int
deriving DecidableEq

def LastIdInQueue.get (a : LastIdInQueue) : PsType → Int
  | .vps => a.vpsId
  | .sps => a.spsId
  | .pps => a.ppsId

def LastIdInQueue.set (a : LastIdInQueue) : PsType → Int → LastIdInQueue
  | .vps, i => { a with vpsId := i }
  | .sps, i => { a with spsId := i }
  | .pps, i => { a with ppsId := i }

/-- `m_lastPictParamsQueue[NUM_OF_TYPES]` (line 277): most recently applied
set per type (`lastAppliedSet` in the spec), initially absent. -/
structure LastApplied where
  vpsSet : Option StdVideoPictureParametersSet
  spsSet : Option StdVideoPictureParametersSet
  ppsSet : Option StdVideoPictureParametersSet
deriving DecidableEq

def LastApplied.get (a : LastApplied) : PsType → Option StdVideoPictureParametersSet
  | .vps => a.vpsSet
  | .sps => a.spsSet
  | .pps => a.ppsSet

def LastApplied.set (a : LastApplied) :
    PsType → StdVideoPictureParametersSet → LastApplied
  | .vps, p => { a with vpsSet := some p }
  | .sps, p => { a with spsSet := some p }
  | .pps, p => { a with ppsSet := some p }

/-- The parameter-set cache state of `VkVideoDecoder` (lines 274-278),
plus `builtObjects`: the heap of every composite ever built and still
owned by some reference (composites are refcounted and never destroyed
while a decode request holds them; the model keeps them all, append-only,
so that claims about previously captured snapshots can be stated). -/
structure ParamCacheState where
  pictureParametersQueue : List StdVideoPictureParametersSet
  lastIdInQueue : LastIdInQueue
  lastPictParamsQueue : LastApplied
  currentPictureParameters : Option VkParserVideoPictureParameters
  builtObjects : List VkParserVideoPictureParameters
deriving DecidableEq

/-- The cache state set up by the `VkVideoDecoder` constructor (lines
195-213): empty queue, `m_lastIdInQueue{-1,-1,-1}`, nothing applied, no
current composite. -/
def initParamCache : ParamCacheState :=
  { pictureParametersQueue := []
    lastIdInQueue := { vpsId := -1, spsId := -1, ppsId := -1 }
    lastPictParamsQueue := { vpsSet := none, spsSet := none, ppsSet := none }
    currentPictureParameters := none
    builtObjects := [] }

/-- Modelled from the spec (§4.4 `addPictureParameters`; body of
`VkVideoDecoder::AddPictureParametersToQueue` is not in the verified
headers): if the incoming set's id equals `lastIdInQueue[type]` it is
treated as already seen and nothing is enqueued (the already-queued/applied
object is returned); otherwise the set is appended to the queue and
`lastIdInQueue[type]` is updated.  The Bool reports whether an entry was
enqueued. -/
def addPictureParametersToQueue (s : ParamCacheState)
    (p : StdVideoPictureParametersSet) : ParamCacheState × Bool :=
  if p.psId = s.lastIdInQueue.get p.psType then
    (s, false)
  else
    ({ s with pictureParametersQueue := s.pictureParametersQueue ++ [p]
              lastIdInQueue := s.lastIdInQueue.set p.psType p.psId },
     true)

/-- Whether an id is known to the cache for a given type: some queued entry
of that type carries it, or it is the id of the most recently applied set of
that type. -/
def knownId (s : ParamCacheState) (t : PsType) (i : Int) : Bool :=
  s.pictureParametersQueue.any (fun q => q.psType = t ∧ q.psId = i) ||
    (match s.lastPictParamsQueue.get t with
     | some q => q.psId = i
     | none => false)

/-- Modelled from the spec (§4.4 `checkBeforeUpdate`; body of
`VkVideoDecoder::CheckStdObjectBeforeUpdate` is not in the verified
headers): structural validation of a candidate before it may be enqueued —
an SPS must reference a known VPS id and a PPS a known SPS id; a VPS has no
parent.  A set failing this is rejected and not enqueued. -/
def checkStdObjectBeforeUpdate (s : ParamCacheState)
    (p : StdVideoPictureParametersSet) : Bool :=
  match p.psType with
  | .vps => true
  | .sps => knownId s .vps p.parentId
  | .pps => knownId s .sps p.parentId

/-- Modelled from the spec (§4.4 `checkAfterUpdate`; body of
`VkVideoDecoder::CheckStdObjectAfterUpdate` is not in the verified
headers): a freshly built composite is kept only if all three constituent
types are the expected ones and the parent links are consistent (the PPS's
parent id is the id of the SPS actually selected, and the SPS's parent id
the id of the VPS actually selected). -/
def checkStdObjectAfterUpdate (cand : VkParserVideoPictureParameters) : Bool :=
  cand.vpsSet.psType = PsType.vps ∧ cand.spsSet.psType = PsType.sps ∧
    cand.ppsSet.psType = PsType.pps ∧ cand.ppsSet.parentId = cand.spsSet.psId ∧
    cand.spsSet.parentId = cand.vpsSet.psId

/-- The candidate composite buildable from the per-type applied sets, when
all three types have one. -/
def buildCandidate (a : LastApplied) : Option VkParserVideoPictureParameters :=
  match a.vpsSet, a.spsSet, a.ppsSet with
  | some v, some s, some p => some { vpsSet := v, spsSet := s, ppsSet := p }
  | _, _, _ => none

/-- Modelled from the spec (§4.4 `flushQueue`, one dequeued entry): record
the entry as the applied set of its type; if all three types now have an
applied set, build the candidate composite and — when it passes
`checkAfterUpdate` — install it as the current object, retaining it in the
heap of built objects; on validation failure the candidate is discarded and
the previous current object stays. -/
def flushOneEntry (s : ParamCacheState)
    (p : StdVideoPictureParametersSet) : ParamCacheState :=
  let s1 := { s with lastPictParamsQueue := s.lastPictParamsQueue.set p.psType p }
  match buildCandidate s1.lastPictParamsQueue with
  | some cand =>
    if checkStdObjectAfterUpdate cand then
      { s1 with currentPictureParameters := some cand
                builtObjects := s1.builtObjects ++ [cand] }
    else s1
  | none => s1

/-- Modelled from the spec (§4.4 `flushQueue`; body of
`VkVideoDecoder::FlushPictureParametersQueue` is not in the verified
headers): dequeues all pending entries in FIFO order, applying each, and
returns how many entries were flushed. -/
def flushPictureParametersQueue (s : ParamCacheState) : ParamCacheState × Nat :=
  (s.pictureParametersQueue.foldl flushOneEntry
     { s with pictureParametersQueue := [] },
   s.pictureParametersQueue.length)

/-- Modelled from the spec (§4.4 / §6 `onParametersUpdate`): the update
pipeline — a set failing `checkBeforeUpdate` is rejected locally with the
state unchanged; otherwise it goes through the duplicate check and, when
new, is enqueued. -/
def updatePictureParameters (s : ParamCacheState)
    (p : StdVideoPictureParametersSet) : ParamCacheState × Bool :=
  if checkStdObjectBeforeUpdate s p then
    ((addPictureParametersToQueue s p).1, true)
  else
    (s, false)

/-- `getCurrentParameters`: the composite valid right now
(`m_currentPictureParameters`, line 278); a decode request captures this
value at construction time. -/
def getCurrentParameters (s : ParamCacheState) :
    Option VkParserVideoPictureParameters :=
  s.currentPictureParameters

/-- One orchestrator-driven cache operation: a parameter-set update or a
queue flush at a picture boundary. -/
inductive CacheOp where
  | update (p : StdVideoPictureParametersSet)
  | flush
deriving DecidableEq

/-- Run one cache operation. -/
def runOp (s : ParamCacheState) : CacheOp → ParamCacheState
  | .update p => (updatePictureParameters s p).1
  | .flush => (flushPictureParametersQueue s).1

/-- Run a sequence of cache operations. -/
def runOps (s : ParamCacheState) (ops : List CacheOp) : ParamCacheState :=
  ops.foldl runOp s

/-! ## Logger (NvCodecUtils/Logger.h) -/

/-- `simplelogger::LogLevel` (Logger.h lines 35-41). -/
inductive LogLevel where
  | trace
  | info
  | warning
  | error
  | fatal
deriving DecidableEq

/-- The underlying integer value of each enumerator (declaration order). -/
def LogLevel.toNat : LogLevel → Nat
  | .trace => 0
  | .info => 1
  | .warning => 2
  | .error => 3
  | .fatal => 4

/-- The configuration of a `simplelogger::Logger` relevant to filtering:
its threshold `m_level` (Logger.h line 75). -/
structure Logger where
  m_level : LogLevel
deriving DecidableEq

/-- `Logger::ShouldLogFor(l)` (Logger.h lines 49-51): `l >= m_level`. -/
def Logger.shouldLogFor (lg : Logger) (l : LogLevel) : Bool :=
  lg.m_level.toNat ≤ l.toNat

/-- Observable effect of `~LogTransaction()` (Logger.h lines 136-150):
whether it wrote the trailing `std::endl` to `std::cout` (null-logger path),
whether it wrote to the logger's stream, and the `exit` code if it
terminated the process. -/
structure LogDtorEffect where
  wroteStdout : Bool
  wroteLoggerStream : Bool
  exitCode : Option Nat
deriving DecidableEq

/-- `simplelogger::LogTransaction::~LogTransaction()` (Logger.h lines
136-150): with a null `m_pLogger` it prints `std::endl` to `std::cout` and
returns; with a logger whose threshold filters out `m_level` it returns
silently; otherwise it writes to the logger's stream, flushes, leaves the
critical section, and calls `exit(1)` exactly when `m_level == FATAL`. -/
def logTransactionDtor (m_pLogger : Option Logger) (m_level : LogLevel) :
    LogDtorEffect :=
  match m_pLogger with
  | none => { wroteStdout := true, wroteLoggerStream := false, exitCode := none }
  | some lg =>
    if lg.shouldLogFor m_level then
      { wroteStdout := false, wroteLoggerStream := true,
        exitCode := if m_level = .fatal then some 1 else none }
    else
      { wroteStdout := false, wroteLoggerStream := false, exitCode := none }

/-! ## Helper lemmas: frame slot table -/

theorem resize_state_length (s : NvVkDecodeFrameData) (t w : Nat) :
    ((s.resize t w).state).commandBuffers.length = t := by
  unfold NvVkDecodeFrameData.resize
  dsimp only
  split_ifs with hAlloc hLe hLe' <;>
    simp [List.length_take, List.length_append, List.length_replicate,
      List.length_map, List.length_range] <;> omega

theorem resize_pool_true (s : NvVkDecodeFrameData) (t w : Nat) :
    ((s.resize t w).state).videoCommandPool = true := rfl

theorem resizeSeq_pool_preserved (targets : List Nat) :
    ∀ s : NvVkDecodeFrameData, s.videoCommandPool = true →
      (resizeSeq s targets).videoCommandPool = true := by
  induction targets with
  | nil => intro s h; exact h
  | cons t ts ih =>
    intro s _
    exact ih _ (resize_pool_true s t s.maxCodedWidth)

theorem sub64_cast_of_le (a b : Nat) (hle : b ≤ a) (hlt : a - b < 2 ^ 32) :
    toUInt32nat (sub64 a b) = a - b := by
  unfold toUInt32nat sub64
  omega

/-! ## Claim C1 -/

/-- C1 counterexample: the claim says a `resize` call with
`targetCount <= previousCount` leaves the allocated slot count unchanged,
but `m_commandBuffers.resize(maxDecodeFramesCount)` truncates: after
`resize(5, ...)` then `resize(3, ...)` the table holds 3 slots, not 5. -/
theorem frameSlotTable_shrink_counterexample_c1 :
    (resizeSeq initFrameData [5, 3]).commandBuffers.length = 3 ∧
    ¬(resizeSeq initFrameData [5, 3]).commandBuffers.length = 5 := by decide

/-- C1 (amended): `resize(targetCount, ...)` always leaves the table with
exactly `targetCount` slots (std::vector::resize semantics) — so
`resize(5)`, `resize(3)`, `resize(8)` ends with exactly 8 slots and a call
with `targetCount = previousCount` leaves the count unchanged, but a call
with `targetCount < previousCount` shrinks the table to `targetCount`
rather than being a no-op. -/
theorem frameSlotTable_resize_count_c1 :
    (∀ (s : NvVkDecodeFrameData) (t w : Nat),
        ((s.resize t w).state).commandBuffers.length = t) ∧
    (resizeSeq initFrameData [5, 3, 8]).commandBuffers.length = 8 ∧
    (∀ (s : NvVkDecodeFrameData) (w : Nat),
        ((s.resize s.commandBuffers.length w).state).commandBuffers.length =
          s.commandBuffers.length) :=
  ⟨resize_state_length, by decide, fun s w => resize_state_length s _ w⟩

/-! ## Claim C6 -/

theorem resize_growth_spec (s : NvVkDecodeFrameData) (t w : Nat)
    (hle : s.commandBuffers.length ≤ t)
    (hlt : t - s.commandBuffers.length < 2 ^ 32) :
    (s.resize t w).ret = s.commandBuffers.length ∧
    (s.resize t w).requestedAllocCount = t - s.commandBuffers.length ∧
    ((s.resize t w).state).commandBuffers.length =
      s.commandBuffers.length + (t - s.commandBuffers.length) ∧
    ((s.resize t w).state).commandBuffers.take s.commandBuffers.length =
      s.commandBuffers := by
  have hreq := sub64_cast_of_le t s.commandBuffers.length hle hlt
  refine ⟨rfl, hreq, ?_, ?_⟩
  · rw [resize_state_length]; omega
  · unfold NvVkDecodeFrameData.resize
    dsimp only
    rw [if_pos ⟨hle, hreq.symm ▸ rfl⟩]
    rcases Nat.lt_or_ge s.commandBuffers.length t with hgt | hge
    · rw [if_neg (by omega)]
      rw [List.take_append_of_le_length (by simp)]
      simp
    · have heq : t = s.commandBuffers.length := Nat.le_antisymm hge hle
      subst heq
      simp

/-- C6 counterexample: on a shrinking call the claimed "allocates exactly
`targetCount - previousCount` additional command buffers" fails — after
`resize(5, ...)`, the call `resize(3, ...)` computes
`(uint32_t)(maxDecodeFramesCount - oldCommandBuffersCount)` which
underflows to 4294967294, and the table ends with 3 slots (2 fewer than
before), not `previousCount + (targetCount - previousCount)`. -/
theorem resize_alloc_underflow_counterexample_c6 :
    ((resizeSeq initFrameData [5]).resize 3 0).ret = 5 ∧
    ((resizeSeq initFrameData [5]).resize 3 0).requestedAllocCount = 4294967294 ∧
    ¬((resizeSeq initFrameData [5]).resize 3 0).requestedAllocCount = 0 ∧
    (((resizeSeq initFrameData [5]).resize 3 0).state).commandBuffers.length = 3 := by
  decide

/-- C6 (amended): for every call with `targetCount >= previousCount` (and a
difference that survives the uint32 cast), `resize` returns the previous
count, requests and appends exactly `targetCount - previousCount`
additional command buffers while keeping the existing ones, and the
underlying command pool is created only on the first call (the constructor
leaves it null, every call sets it, and a call only creates it when it was
null).  For `targetCount < previousCount` the unsigned subtraction
underflows instead of allocating `targetCount - previousCount`. -/
theorem frameSlotTable_resize_contract_c6 :
    (∀ (s : NvVkDecodeFrameData) (t w : Nat),
        s.commandBuffers.length ≤ t → t - s.commandBuffers.length < 2 ^ 32 →
        (s.resize t w).ret = s.commandBuffers.length ∧
        (s.resize t w).requestedAllocCount = t - s.commandBuffers.length ∧
        ((s.resize t w).state).commandBuffers.length =
          s.commandBuffers.length + (t - s.commandBuffers.length) ∧
        ((s.resize t w).state).commandBuffers.take s.commandBuffers.length =
          s.commandBuffers) ∧
    (∀ (s : NvVkDecodeFrameData) (t w : Nat),
        (s.resize t w).createdPoolNow = !s.videoCommandPool ∧
        ((s.resize t w).state).videoCommandPool = true) ∧
    initFrameData.videoCommandPool = false ∧
    (∀ (targets : List Nat) (t w : Nat), targets ≠ [] →
        ((resizeSeq initFrameData targets).resize t w).createdPoolNow = false) := by
  refine ⟨resize_growth_spec, fun s t w => ⟨rfl, resize_pool_true s t w⟩, rfl, ?_⟩
  intro targets t w hne
  match targets with
  | [] => exact absurd rfl hne
  | t0 :: ts =>
    have hpool : (resizeSeq initFrameData (t0 :: ts)).videoCommandPool = true := by
      show (resizeSeq ((initFrameData.resize t0 initFrameData.maxCodedWidth).state) ts).videoCommandPool = true
      exact resizeSeq_pool_preserved ts _ (resize_pool_true _ _ _)
    show (!(resizeSeq initFrameData (t0 :: ts)).videoCommandPool) = false
    rw [hpool]
    rfl

/-- C6 witness: the amended contract evaluated on concrete calls — the
first `resize(5)` on a fresh table returns 0, requests 5 buffers and
creates the pool; the follow-up `resize(8)` does not create it again. -/
theorem frameSlotTable_resize_contract_c6_witness :
    ((initFrameData.resize 5 0).ret = 0 ∧
      (initFrameData.resize 5 0).requestedAllocCount = 5 - 0 ∧
      ((initFrameData.resize 5 0).state).commandBuffers.length = 0 + (5 - 0) ∧
      ((initFrameData.resize 5 0).state).commandBuffers.take 0 = []) ∧
    (((resizeSeq initFrameData [5]).resize 8 0).createdPoolNow = false) :=
  ⟨frameSlotTable_resize_contract_c6.1 initFrameData 5 0 (by decide) (by decide),
   frameSlotTable_resize_contract_c6.2.2.2 [5] 8 0 (by decide)⟩

/-! ## Claim C7 -/

/-- C7: `GetCommandBuffer(slot)` returns the command buffer stored at
`slot` whenever `slot` is within the allocated range, with the
`assert(slot < m_commandBuffers.size())` holding; for any slot at or
beyond the range the assertion fails — the function has no error-code
return path (`none` is the assertion/out-of-bounds case, not a
recoverable result). -/
theorem getCommandBuffer_contract_c7 :
    ∀ (s : NvVkDecodeFrameData) (slot : Nat),
      (slot < s.commandBuffers.length →
        s.getCommandBufferAssertHolds slot = true ∧
        s.getCommandBuffer slot = some (s.commandBuffers.getD slot 0)) ∧
      (s.commandBuffers.length ≤ slot →
        s.getCommandBufferAssertHolds slot = false ∧
        s.getCommandBuffer slot = none) := by
  intro s slot
  constructor
  · intro h
    refine ⟨by simp [NvVkDecodeFrameData.getCommandBufferAssertHolds, h], ?_⟩
    unfold NvVkDecodeFrameData.getCommandBuffer
    rw [List.getD_eq_get _ _ h, List.get?_eq_get h]
  · intro h
    refine ⟨by simp [NvVkDecodeFrameData.getCommandBufferAssertHolds]; omega, ?_⟩
    unfold NvVkDecodeFrameData.getCommandBuffer
    exact List.get?_eq_none.mpr h

/-- C7 witness: on a table with two slots, slot 1 passes the assertion and
yields the stored handle, while slot 5 fails the assertion. -/
theorem getCommandBuffer_contract_c7_witness :
    ((resizeSeq initFrameData [2]).getCommandBufferAssertHolds 1 = true ∧
      (resizeSeq initFrameData [2]).getCommandBuffer 1 =
        some ((resizeSeq initFrameData [2]).commandBuffers.getD 1 0)) ∧
    ((resizeSeq initFrameData [2]).getCommandBufferAssertHolds 5 = false ∧
      (resizeSeq initFrameData [2]).getCommandBuffer 5 = none) :=
  ⟨(getCommandBuffer_contract_c7 (resizeSeq initFrameData [2]) 1).1 (by decide),
   (getCommandBuffer_contract_c7 (resizeSeq initFrameData [2]) 5).2 (by decide)⟩

/-! ## Claim C8 -/

/-- C8: teardown.  `deinit` with a live pool frees all
`m_commandBuffers.size()` command buffers and destroys the owning pool in
the same call; when nothing was ever allocated (the constructor state, or
any state with a null pool — `resize` is the only place the pool is
created) it is a safe no-op that touches nothing. -/
theorem deinit_teardown_c8 :
    initFrameData.deinit =
      (initFrameData, { freedBufferCount := none, destroyedPool := false }) ∧
    (∀ s : NvVkDecodeFrameData, s.videoCommandPool = false →
        s.deinit = (s, { freedBufferCount := none, destroyedPool := false })) ∧
    (∀ s : NvVkDecodeFrameData, s.videoCommandPool = true →
        s.deinit = ({ s with videoCommandPool := false },
          { freedBufferCount := some s.commandBuffers.length,
            destroyedPool := true })) := by
  refine ⟨rfl, ?_, ?_⟩
  · intro s h
    unfold NvVkDecodeFrameData.deinit
    rw [h]
    rfl
  · intro s h
    unfold NvVkDecodeFrameData.deinit
    rw [h]
    rfl

/-- C8 witness: the never-allocated decoder state tears down as a no-op,
and after `resize(2)` teardown frees both buffers and destroys the pool. -/
theorem deinit_teardown_c8_witness :
    initFrameData.deinit =
      (initFrameData, { freedBufferCount := none, destroyedPool := false }) ∧
    (resizeSeq initFrameData [2]).deinit =
      ({ resizeSeq initFrameData [2] with videoCommandPool := false },
        { freedBufferCount := some 2, destroyedPool := true }) :=
  ⟨deinit_teardown_c8.2.1 initFrameData (by decide),
   deinit_teardown_c8.2.2 (resizeSeq initFrameData [2]) (by decide)⟩

/-! ## Claim C9 -/

/-- C9: `GetCurrentFrameData(slotId, frameDataSlot)` returns `-1` with the
output struct untouched for every `slotId` at or beyond the number of
allocated command buffers (a recoverable error result, in contrast to the
assertion in `GetCommandBuffer`); for every in-range `slotId` (as an
int32_t-representable index) it fills the struct with the slot id and its
command buffer and returns `slotId`. -/
theorem getCurrentFrameData_contract_c9 :
    ∀ (d : NvVkDecodeFrameData) (slotId : Nat) (fds : NvVkDecodeFrameDataSlot),
      (d.size ≤ slotId → getCurrentFrameData d slotId fds = (-1, fds)) ∧
      (slotId < d.size → slotId < 2 ^ 31 →
        getCurrentFrameData d slotId fds =
          ((slotId : Int),
            { slot := slotId,
              commandBuffer := d.commandBuffers.getD slotId 0 })) := by
  intro d slotId fds
  constructor
  · intro h
    unfold getCurrentFrameData
    rw [if_neg (by omega)]
  · intro h h31
    unfold getCurrentFrameData
    rw [if_pos h]
    have hmod : slotId % 2 ^ 32 = slotId := Nat.mod_eq_of_lt (by omega)
    have ht : toInt32 slotId = (slotId : Int) := by
      unfold toInt32
      rw [if_pos (by omega)]
      omega
    rw [ht]
    have hcb : (d.getCommandBuffer slotId).getD 0 = d.commandBuffers.getD slotId 0 := by
      unfold NvVkDecodeFrameData.getCommandBuffer
      rw [List.get?_eq_get h, List.getD_eq_get _ _ h]
      rfl
    rw [hcb]

/-- C9 witness: on a two-slot table, slot 1 yields `(1, {1, handle})` and
slot 7 yields `(-1, untouched struct)`. -/
theorem getCurrentFrameData_contract_c9_witness :
    getCurrentFrameData (resizeSeq initFrameData [2]) 7
        { slot := 42, commandBuffer := 43 } =
      (-1, { slot := 42, commandBuffer := 43 }) ∧
    getCurrentFrameData (resizeSeq initFrameData [2]) 1
        { slot := 42, commandBuffer := 43 } =
      ((1 : Int),
        { slot := 1,
          commandBuffer := (resizeSeq initFrameData [2]).commandBuffers.getD 1 0 }) :=
  ⟨(getCurrentFrameData_contract_c9 (resizeSeq initFrameData [2]) 7
      { slot := 42, commandBuffer := 43 }).1 (by decide),
   (getCurrentFrameData_contract_c9 (resizeSeq initFrameData [2]) 1
      { slot := 42, commandBuffer := 43 }).2 (by decide) (by decide)⟩

/-! ## Helper lemmas: bitstream buffer pool -/

theorem findFreeSlot_replicate_one (m : Nat) :
    findFreeSlot (List.replicate m 1) = none := by
  induction m with
  | zero => rfl
  | succ k ih => simp [List.replicate_succ, findFreeSlot, ih]

theorem findFreeSlot_sound (p : List Nat) (i : Nat)
    (h : findFreeSlot p = some i) : p.getD i 1 = 0 ∧ i < p.length := by
  induction p generalizing i with
  | nil => simp [findFreeSlot] at h
  | cons r rest ih =>
    by_cases hr : r = 0
    · simp [findFreeSlot, hr] at h
      subst h
      simp [hr]
    · simp [findFreeSlot, hr] at h
      obtain ⟨j, hj, hij⟩ := h
      obtain ⟨h1, h2⟩ := ih j hj
      subst hij
      exact ⟨h1, by simpa using Nat.succ_lt_succ h2⟩

theorem poolAcquire_one_cons (p : List Nat) :
    (poolAcquire (1 :: p)).2 = 1 :: (poolAcquire p).2 := by
  unfold poolAcquire
  have hf : findFreeSlot (1 :: p) = (findFreeSlot p).map (· + 1) := by
    simp [findFreeSlot]
  rw [hf]
  cases h : findFreeSlot p with
  | none => rfl
  | some i => simp [List.set]

theorem poolAcquireN_one_cons (n : Nat) (p : List Nat) :
    poolAcquireN n (1 :: p) = 1 :: poolAcquireN n p := by
  induction n generalizing p with
  | zero => rfl
  | succ k ih =>
    show poolAcquireN k (poolAcquire (1 :: p)).2 = 1 :: poolAcquireN k (poolAcquire p).2
    rw [poolAcquire_one_cons, ih]

theorem poolAcquireN_mkPool (K : Nat) :
    poolAcquireN K (mkPool K) = List.replicate K 1 := by
  induction K with
  | zero => rfl
  | succ k ih =>
    show poolAcquireN (k + 1) (List.replicate (k + 1) 0) = List.replicate (k + 1) 1
    rw [List.replicate_succ, List.replicate_succ]
    show poolAcquireN k (poolAcquire (0 :: List.replicate k 0)).2 = 1 :: List.replicate k 1
    have hacq : (poolAcquire (0 :: List.replicate k 0)).2 = 1 :: List.replicate k 0 := by
      simp [poolAcquire, findFreeSlot, List.set]
    have ih' : poolAcquireN k (List.replicate k 0) = List.replicate k 1 := ih
    rw [hacq, poolAcquireN_one_cons, ih']

theorem getD_set_self (p : List Nat) (i v d : Nat) (h : i < p.length) :
    (p.set i v).getD i d = v := by
  induction p generalizing i with
  | nil => simp at h
  | cons a as ih =>
    cases i with
    | zero => rfl
    | succ j =>
      show (as.set j v).getD j d = v
      exact ih j (by simpa using h)

/-! ## Claim C5 -/

/-- C5: the decoder's bitstream buffer pool is the
`VulkanVideoRefCountedPool<..., 64>` instantiation, i.e. fixed capacity 64;
acquiring all `K` slots of a fresh capacity-`K` pool leaves every refcount
at 1, the `(K+1)`-th acquisition fails with `ResourceExhausted` leaving the
pool unchanged, one release makes the next acquisition succeed, an
acquisition only ever hands out a slot whose refcount is 0 (setting it to
1), and after a release a slot sits in the free set precisely when its
refcount has reached zero. -/
theorem bitstreamPool_capacity_exhaustion_c5 :
    (vulkanBitstreamBufferPool = mkPool 64 ∧
      vulkanBitstreamBufferPool.length = 64) ∧
    (∀ K : Nat, poolAcquireN K (mkPool K) = List.replicate K 1) ∧
    (∀ K : Nat, poolAcquire (poolAcquireN K (mkPool K)) =
        (PoolAcquireResult.resourceExhausted, poolAcquireN K (mkPool K))) ∧
    (∀ K : Nat, 0 < K →
        (poolAcquire (poolRelease (poolAcquireN K (mkPool K)) 0)).1 =
          PoolAcquireResult.ok 0) ∧
    (∀ (p : List Nat) (i : Nat), (poolAcquire p).1 = PoolAcquireResult.ok i →
        p.getD i 1 = 0 ∧ (poolAcquire p).2 = p.set i 1) ∧
    (∀ (p : List Nat) (i : Nat), i < p.length →
        (slotIsFree (poolRelease p i) i = true ↔ p.getD i 0 ≤ 1)) := by
  refine ⟨⟨rfl, by decide⟩, poolAcquireN_mkPool, ?_, ?_, ?_, ?_⟩
  · intro K
    rw [poolAcquireN_mkPool]
    unfold poolAcquire
    rw [findFreeSlot_replicate_one]
  · intro K hK
    rw [poolAcquireN_mkPool]
    match K, hK with
    | k + 1, _ =>
      rw [List.replicate_succ]
      have hrel : poolRelease (1 :: List.replicate k 1) 0 = 0 :: List.replicate k 1 := by
        simp [poolRelease, List.set, List.getD]
      rw [hrel]
      simp [poolAcquire, findFreeSlot]
  · intro p i h
    unfold poolAcquire at h ⊢
    cases hf : findFreeSlot p with
    | none => rw [hf] at h; simp at h
    | some j =>
      rw [hf] at h
      simp at h
      subst h
      exact ⟨(findFreeSlot_sound p j hf).1, rfl⟩
  · intro p i h
    unfold slotIsFree poolRelease
    rw [getD_set_self p i _ 1 h, decide_eq_true_eq]
    omega

/-- C5 witness: with all 64 slots of the decoder's pool acquired, releasing
slot 0 lets the next acquisition succeed on slot 0; and on a concrete
2-slot pool, releasing a slot of refcount 1 puts it back in the free set. -/
theorem bitstreamPool_capacity_exhaustion_c5_witness :
    (poolAcquire (poolRelease (poolAcquireN 64 (mkPool 64)) 0)).1 =
      PoolAcquireResult.ok 0 ∧
    (slotIsFree (poolRelease [1, 2] 0) 0 = true ↔ [1, 2].getD 0 0 ≤ 1) :=
  ⟨bitstreamPool_capacity_exhaustion_c5.2.2.2.1 64 (by decide),
   bitstreamPool_capacity_exhaustion_c5.2.2.2.2.2 [1, 2] 0 (by decide)⟩

/-! ## Claim C10 -/

/-- C10: the `~LogTransaction` of a FATAL-level statement calls `exit(1)`
exactly when a logger object is installed and its threshold admits FATAL
(which every threshold does, FATAL being the maximal level); with a null
global logger pointer the transaction prints to `std::cout` and does not
terminate the process. -/
theorem logTransaction_fatal_exit_c10 :
    (∀ lg : Option Logger,
        (logTransactionDtor lg .fatal).exitCode = some 1 ↔
          ∃ L : Logger, lg = some L ∧ L.shouldLogFor .fatal = true) ∧
    logTransactionDtor none .fatal =
      { wroteStdout := true, wroteLoggerStream := false, exitCode := none } ∧
    (∀ L : Logger, L.shouldLogFor .fatal = true) := by
  have hadmit : ∀ L : Logger, L.shouldLogFor .fatal = true := by
    intro L
    cases L with
    | mk lvl => cases lvl <;> rfl
  refine ⟨?_, rfl, hadmit⟩
  intro lg
  cases lg with
  | none =>
    constructor
    · intro h
      exact absurd h (by simp [logTransactionDtor])
    · rintro ⟨L, hL, -⟩
      exact absurd hL (by simp)
  | some L =>
    constructor
    · intro _
      exact ⟨L, rfl, hadmit L⟩
    · intro _
      simp [logTransactionDtor, hadmit L]

/-! ## Helper lemmas and concrete data: parameter-set cache -/

theorem LastIdInQueue.get_set_self (a : LastIdInQueue) (t : PsType) (i : Int) :
    (a.set t i).get t = i := by
  cases t <;> rfl

/-- Fold a list of parameter sets through `addPictureParametersToQueue`. -/
def addSeq (s : ParamCacheState) (ps : List StdVideoPictureParametersSet) :
    ParamCacheState :=
  ps.foldl (fun st p => (addPictureParametersToQueue st p).1) s

theorem addQueue_builtObjects (s : ParamCacheState)
    (p : StdVideoPictureParametersSet) :
    ((addPictureParametersToQueue s p).1).builtObjects = s.builtObjects := by
  unfold addPictureParametersToQueue
  split_ifs <;> rfl

theorem addQueue_current (s : ParamCacheState)
    (p : StdVideoPictureParametersSet) :
    ((addPictureParametersToQueue s p).1).currentPictureParameters =
      s.currentPictureParameters := by
  unfold addPictureParametersToQueue
  split_ifs <;> rfl

theorem flushOne_mem_built (s : ParamCacheState)
    (p : StdVideoPictureParametersSet)
    (o : VkParserVideoPictureParameters) (h : o ∈ s.builtObjects) :
    o ∈ (flushOneEntry s p).builtObjects := by
  unfold flushOneEntry
  dsimp only
  split
  · split
    · exact List.mem_append_left _ h
    · exact h
  · exact h

theorem flushFold_mem_built (l : List StdVideoPictureParametersSet) :
    ∀ (s : ParamCacheState) (o : VkParserVideoPictureParameters),
      o ∈ s.builtObjects → o ∈ (l.foldl flushOneEntry s).builtObjects := by
  induction l with
  | nil => intro s o h; exact h
  | cons p rest ih =>
    intro s o h
    exact ih _ o (flushOne_mem_built s p o h)

theorem runOp_mem_built (s : ParamCacheState) (op : CacheOp)
    (o : VkParserVideoPictureParameters) (h : o ∈ s.builtObjects) :
    o ∈ (runOp s op).builtObjects := by
  cases op with
  | update p =>
    show o ∈ ((updatePictureParameters s p).1).builtObjects
    unfold updatePictureParameters
    split_ifs
    · rw [addQueue_builtObjects]
      exact h
    · exact h
  | flush =>
    exact flushFold_mem_built _ _ o h

theorem runOps_mem_built (ops : List CacheOp) :
    ∀ (s : ParamCacheState) (o : VkParserVideoPictureParameters),
      o ∈ s.builtObjects → o ∈ (runOps s ops).builtObjects := by
  induction ops with
  | nil => intro s o h; exact h
  | cons op rest ih =>
    intro s o h
    exact ih _ o (runOp_mem_built s op o h)

/-- The invariant that the current composite, when present, lives in the
heap of built objects. -/
def CurrentInHeap (s : ParamCacheState) : Prop :=
  ∀ o : VkParserVideoPictureParameters,
    s.currentPictureParameters = some o → o ∈ s.builtObjects

theorem flushOne_inv (s : ParamCacheState) (p : StdVideoPictureParametersSet)
    (h : CurrentInHeap s) : CurrentInHeap (flushOneEntry s p) := by
  unfold flushOneEntry
  dsimp only
  split
  · split
    · intro o ho
      have hoc : o = _ := (Option.some.injEq _ _ ▸ ho).symm
      subst hoc
      exact List.mem_append_right _ (by simp)
    · exact h
  · exact h

theorem flushFold_inv (l : List StdVideoPictureParametersSet) :
    ∀ s : ParamCacheState, CurrentInHeap s →
      CurrentInHeap (l.foldl flushOneEntry s) := by
  induction l with
  | nil => intro s h; exact h
  | cons p rest ih =>
    intro s h
    exact ih _ (flushOne_inv s p h)

theorem runOp_inv (s : ParamCacheState) (op : CacheOp) (h : CurrentInHeap s) :
    CurrentInHeap (runOp s op) := by
  cases op with
  | update p =>
    have hc : (runOp s (CacheOp.update p)).currentPictureParameters =
        s.currentPictureParameters := by
      show ((updatePictureParameters s p).1).currentPictureParameters = _
      unfold updatePictureParameters
      split_ifs
      · exact addQueue_current s p
      · rfl
    have hb : (runOp s (CacheOp.update p)).builtObjects = s.builtObjects := by
      show ((updatePictureParameters s p).1).builtObjects = _
      unfold updatePictureParameters
      split_ifs
      · exact addQueue_builtObjects s p
      · rfl
    intro o ho
    rw [hc] at ho
    rw [hb]
    exact h o ho
  | flush =>
    exact flushFold_inv _ _ h

theorem runOps_inv (ops : List CacheOp) :
    ∀ s : ParamCacheState, CurrentInHeap s → CurrentInHeap (runOps s ops) := by
  induction ops with
  | nil => intro s h; exact h
  | cons op rest ih =>
    intro s h
    exact ih _ (runOp_inv s op h)

/-- A VPS-like set with id 1 (parent field unused for a VPS). -/
def vps1 : StdVideoPictureParametersSet := { psType := .vps, psId := 1, parentId := 0 }

/-- An SPS-like set with id 1 referencing VPS id 1. -/
def sps1 : StdVideoPictureParametersSet := { psType := .sps, psId := 1, parentId := 1 }

/-- A PPS-like set with id 1 referencing SPS id 1. -/
def pps1 : StdVideoPictureParametersSet := { psType := .pps, psId := 1, parentId := 1 }

/-- A PPS-like set with id 2 referencing SPS id 1. -/
def pps2 : StdVideoPictureParametersSet := { psType := .pps, psId := 2, parentId := 1 }

/-- The composite {VPS#1, SPS#1, PPS#1}. -/
def composite111 : VkParserVideoPictureParameters :=
  { vpsSet := vps1, spsSet := sps1, ppsSet := pps1 }

/-! ## Claim C2 -/

/-- C2 counterexample: duplicate detection only consults
`lastIdInQueue[type]`, the most recently queued id of the type, so a
resubmission of `(SPS, 1)` after `(SPS, 2)` intervened is enqueued again —
after submitting SPS#1, SPS#2, SPS#1 the pending queue holds two entries
with `(type, id) = (SPS, 1)`, refuting "at most one pending queue entry
exists per distinct (type, id)". -/
theorem addPictureParameters_nonadjacent_dup_counterexample_c2 :
    ((addSeq initParamCache
        [{ psType := .sps, psId := 1, parentId := 0 },
         { psType := .sps, psId := 2, parentId := 0 },
         { psType := .sps, psId := 1, parentId := 0 }]).pictureParametersQueue.countP
      (fun q => q.psType = PsType.sps ∧ q.psId = 1)) = 2 ∧
    ¬((addSeq initParamCache
        [{ psType := .sps, psId := 1, parentId := 0 },
         { psType := .sps, psId := 2, parentId := 0 },
         { psType := .sps, psId := 1, parentId := 0 }]).pictureParametersQueue.countP
      (fun q => q.psType = PsType.sps ∧ q.psId = 1)) ≤ 1 := by
  decide

/-- C2 (amended): `addPictureParameters` deduplicates only against the most
recently queued id of the same type — a submission whose id equals
`lastIdInQueue[type]` is not enqueued and the state is unchanged, hence an
immediate resubmission of the same set (and so any consecutive run of
identical submissions) enqueues at most one entry; but a resubmission of an
id after a different id of the same type intervened is enqueued again, so
distinct non-adjacent duplicates can coexist in the queue. -/
theorem addPictureParameters_dedup_c2 :
    (∀ (s : ParamCacheState) (p : StdVideoPictureParametersSet),
        p.psId = s.lastIdInQueue.get p.psType →
        addPictureParametersToQueue s p = (s, false)) ∧
    (∀ (s : ParamCacheState) (p : StdVideoPictureParametersSet),
        addPictureParametersToQueue (addPictureParametersToQueue s p).1 p =
          ((addPictureParametersToQueue s p).1, false)) := by
  have hdedup : ∀ (s : ParamCacheState) (p : StdVideoPictureParametersSet),
      p.psId = s.lastIdInQueue.get p.psType →
      addPictureParametersToQueue s p = (s, false) := by
    intro s p h
    unfold addPictureParametersToQueue
    rw [if_pos h]
  refine ⟨hdedup, ?_⟩
  intro s p
  apply hdedup
  unfold addPictureParametersToQueue
  split_ifs with h
  · exact h
  · exact (LastIdInQueue.get_set_self s.lastIdInQueue p.psType p.psId).symm

/-- C2 witness: resubmitting `(SPS, 1)` right after it was queued leaves
the cache unchanged and enqueues nothing. -/
theorem addPictureParameters_dedup_c2_witness :
    addPictureParametersToQueue
        (addSeq initParamCache [{ psType := .sps, psId := 1, parentId := 0 }])
        { psType := .sps, psId := 1, parentId := 0 } =
      (addSeq initParamCache [{ psType := .sps, psId := 1, parentId := 0 }],
       false) :=
  addPictureParameters_dedup_c2.1
    (addSeq initParamCache [{ psType := .sps, psId := 1, parentId := 0 }])
    { psType := .sps, psId := 1, parentId := 0 } (by decide)

/-! ## Claim C3 -/

/-- C3: snapshot stability.  Whatever composite a decode request captured
via `getCurrentParameters` at any reachable cache state stays alive and
untouched in the heap of built objects across every later sequence of
updates and `flushQueue` calls: installing a new composite appends a fresh
object and moves the `current` pointer, it never rewrites or removes a
previously built one (composites are immutable values here, so membership
of the very same value is exactly "unchanged and alive"). -/
theorem snapshot_stability_c3 :
    ∀ (ops1 ops2 : List CacheOp) (o : VkParserVideoPictureParameters),
      getCurrentParameters (runOps initParamCache ops1) = some o →
      o ∈ (runOps (runOps initParamCache ops1) ops2).builtObjects := by
  intro ops1 ops2 o hcap
  have hinv : CurrentInHeap (runOps initParamCache ops1) :=
    runOps_inv ops1 initParamCache (fun o h => by
      exact absurd h (by simp [initParamCache, getCurrentParameters]))
  exact runOps_mem_built ops2 _ o (hinv o hcap)

/-- C3 witness: the end-to-end scenario — after queueing VPS#1, SPS#1,
PPS#1 and flushing, picture P1 captures {VPS#1,SPS#1,PPS#1}; queueing
PPS#2 and flushing advances the current composite to {VPS#1,SPS#1,PPS#2},
yet P1's captured object is still present intact in the built-object
heap. -/
theorem snapshot_stability_c3_witness :
    getCurrentParameters (runOps initParamCache
        [.update vps1, .update sps1, .update pps1, .flush]) = some composite111 ∧
    getCurrentParameters (runOps (runOps initParamCache
        [.update vps1, .update sps1, .update pps1, .flush])
        [.update pps2, .flush]) =
      some { vpsSet := vps1, spsSet := sps1, ppsSet := pps2 } ∧
    composite111 ∈ (runOps (runOps initParamCache
        [.update vps1, .update sps1, .update pps1, .flush])
        [.update pps2, .flush]).builtObjects :=
  ⟨by decide, by decide,
   snapshot_stability_c3 [.update vps1, .update sps1, .update pps1, .flush]
     [.update pps2, .flush] composite111 (by decide)⟩

/-! ## Claim C4 -/

/-- C4: composite-build atomicity on validation failure.  A parameter set
failing `checkBeforeUpdate` is rejected with the whole cache state
unchanged; and when the candidate composite built while flushing an entry
fails `checkAfterUpdate` (or cannot be built because a constituent type is
missing), the candidate is discarded — the previously active composite
stays current and the built-object heap is untouched. -/
theorem validation_atomicity_c4 :
    (∀ (s : ParamCacheState) (p : StdVideoPictureParametersSet),
        checkStdObjectBeforeUpdate s p = false →
        updatePictureParameters s p = (s, false)) ∧
    (∀ (s : ParamCacheState) (p : StdVideoPictureParametersSet)
        (cand : VkParserVideoPictureParameters),
        buildCandidate (s.lastPictParamsQueue.set p.psType p) = some cand →
        checkStdObjectAfterUpdate cand = false →
        (flushOneEntry s p).currentPictureParameters =
            s.currentPictureParameters ∧
          (flushOneEntry s p).builtObjects = s.builtObjects) ∧
    (∀ (s : ParamCacheState) (p : StdVideoPictureParametersSet),
        buildCandidate (s.lastPictParamsQueue.set p.psType p) = none →
        (flushOneEntry s p).currentPictureParameters =
            s.currentPictureParameters ∧
          (flushOneEntry s p).builtObjects = s.builtObjects) := by
  refine ⟨?_, ?_, ?_⟩
  · intro s p h
    unfold updatePictureParameters
    rw [if_neg (by rw [h]; exact Bool.false_ne_true)]
  · intro s p cand hcand hfail
    unfold flushOneEntry
    dsimp only
    rw [hcand]
    dsimp only
    rw [if_neg (by rw [hfail]; exact Bool.false_ne_true)]
    exact ⟨rfl, rfl⟩
  · intro s p hnone
    unfold flushOneEntry
    dsimp only
    rw [hnone]
    exact ⟨rfl, rfl⟩

/-- C4 witness: with {VPS#1,SPS#1,PPS#1} active, a PPS referencing the
unknown parent SPS id 7 is rejected before queueing with the state
unchanged; and force-flushing such a set builds a candidate that fails
`checkAfterUpdate`, leaving the active composite and the heap unchanged. -/
theorem validation_atomicity_c4_witness :
    updatePictureParameters
        (runOps initParamCache [.update vps1, .update sps1, .update pps1, .flush])
        { psType := .pps, psId := 3, parentId := 7 } =
      (runOps initParamCache [.update vps1, .update sps1, .update pps1, .flush],
       false) ∧
    ((flushOneEntry
          (runOps initParamCache
            [.update vps1, .update sps1, .update pps1, .flush])
          { psType := .pps, psId := 3, parentId := 7 }).currentPictureParameters =
        (runOps initParamCache
          [.update vps1, .update sps1, .update pps1, .flush]).currentPictureParameters ∧
      (flushOneEntry
          (runOps initParamCache
            [.update vps1, .update sps1, .update pps1, .flush])
          { psType := .pps, psId := 3, parentId := 7 }).builtObjects =
        (runOps initParamCache
          [.update vps1, .update sps1, .update pps1, .flush]).builtObjects) :=
  ⟨validation_atomicity_c4.1
      (runOps initParamCache [.update vps1, .update sps1, .update pps1, .flush])
      { psType := .pps, psId := 3, parentId := 7 } (by decide),
   validation_atomicity_c4.2.1
      (runOps initParamCache [.update vps1, .update sps1, .update pps1, .flush])
      { psType := .pps, psId := 3, parentId := 7 }
      { vpsSet := vps1, spsSet := sps1,
        ppsSet := { psType := .pps, psId := 3, parentId := 7 } }
      (by decide) (by decide)⟩

end VkVideoSamples
